import Mathlib

/-!
Shallow embedding of the multi-tenant invoicing and inventory application
(Django project, apps `invoices` / `invoice_app`), together with proofs of
the behavioural claims about it.

Conventions of the embedding:

* Database tables are lists of records; a query-set is a filtered list.
* Foreign keys are stored as numeric ids, exactly as in the relational
  schema; joins are expressed by explicit lookups.
* DECIMAL(10,2) columns (quantities, prices, amounts) are modelled as `Int`.
  Every identity verified below is a ring identity, so nothing depends on
  the scale factor of the decimal representation, and integers keep all
  definitions kernel-computable.
* `DateField` values that only ever participate in comparisons and in
  day arithmetic (`invoice_date`, `deposit_date`) are modelled as `Int`
  day ordinals; the calendar rendering used by invoice-number generation
  is modelled by a year/month/day record and a formatter.
* HTTP handlers become functions from the request context and the store to
  a pair of (status code, new store).
-/

namespace InvoiceApp

/-! ### String helpers (Python `str.startswith` and `format` padding) -/

/-- Bool test that the first list is an initial segment of the second
(the pattern comes first, the scanned list second). -/
def charsStartWith : List Char → List Char → Bool
  | [], _ => true
  | _ :: _, [] => false
  | c :: cs, d :: ds => c == d && charsStartWith cs ds

/-- Python `s.startswith(patt)` / Django `__startswith` lookup. -/
def strStartsWith (s patt : String) : Bool :=
  charsStartWith patt.toList s.toList

/-- Pad a string with leading zero characters up to width `w`
(Python `format` with a `0w` specification; no truncation). -/
def padZeros (w : Nat) (s : String) : String :=
  String.mk (List.replicate (w - s.length) '0') ++ s

/-- Python `{n:04d}` formatting of a natural number. -/
def fmt4 (n : Nat) : String := padZeros 4 (Nat.repr n)

/-- A calendar date, used where the code formats `date.today()`. -/
structure Date where
  year : Nat
  month : Nat
  day : Nat
deriving DecidableEq

/-- Python `today.strftime` with the `%Y%m%d` pattern. -/
def fmtYYYYMMDD (d : Date) : String :=
  padZeros 4 (Nat.repr d.year) ++ padZeros 2 (Nat.repr d.month) ++
    padZeros 2 (Nat.repr d.day)

/-! ### Data model (`invoices/models.py`) -/

/-- `Invoice` row (`models.py`).  Timestamp bookkeeping columns are omitted;
`invoice_date` is a day ordinal (see the module comment). -/
structure Invoice where
  id : Nat
  business : Nat
  user : Nat
  client_name : String
  invoice_number : String
  invoice_date : Int
  payment_type : String
deriving DecidableEq

/-- `Invoice.save` (`models.py` lines 204-219): when `invoice_number` is
falsy (the empty string), count the invoices of the same business whose
number starts with "INV-" followed by today's date string, and assign
"INV-YYYYMMDD-NNNN" with NNNN the count plus one, zero-padded to 4 digits;
otherwise leave the number as it is.  `db` is the invoice table the
locking count runs over; the row-lock itself has no effect on this
single-snapshot computation. -/
def Invoice.save (today : Date) (db : List Invoice) (inv : Invoice) : Invoice :=
  if inv.invoice_number = "" then
    let date_str := fmtYYYYMMDD today
    let today_count :=
      (db.filter (fun i =>
        i.business == inv.business &&
        strStartsWith i.invoice_number ("INV-" ++ date_str))).length
    { inv with invoice_number := "INV-" ++ date_str ++ "-" ++ fmt4 (today_count + 1) }
  else inv

/-- `Product` row (`models.py`).  Timestamp columns are omitted. -/
structure Product where
  id : Nat
  business : Nat
  item_name : String
  unit_price : Int
  is_active : Bool
deriving DecidableEq

/-- `StockMovement` row (`models.py`).  A movement carries its own
`business` foreign key in addition to the `product` one. -/
structure StockMovement where
  business : Nat
  product : Nat
  movement_type : String
  quantity : Int
  movement_date : Int
deriving DecidableEq

/-- `InvoiceItem` row (`models.py`); `invoice` and `product` are ids. -/
structure InvoiceItem where
  invoice : Nat
  product : Nat
  quantity : Int
  unit_price : Int
deriving DecidableEq

/-- Django `aggregate(total=Sum(x))['total']`: `None` when the query-set
is empty, the sum otherwise. -/
def aggSum (l : List Int) : Option Int :=
  match l with
  | [] => none
  | _ => some l.sum

/-- `Product.quantity_in_stock` (`models.py` lines 100-122).
`self.stock_movements` is the reverse relation of the movement's `product`
foreign key, so the IN and OUT sums range over every movement whose
`product` is this product, whatever the movement's own `business` column
holds; only the invoiced sum joins on `invoice__business = self.business`.
Each aggregate falls back to 0 via `or Decimal(0)` when empty. -/
def Product.quantity_in_stock (movements : List StockMovement)
    (invoiceItems : List InvoiceItem) (invoices : List Invoice)
    (p : Product) : Int :=
  let incoming := (aggSum ((movements.filter (fun m =>
      m.product == p.id && m.movement_type == "IN")).map
        StockMovement.quantity)).getD 0
  let outgoing := (aggSum ((movements.filter (fun m =>
      m.product == p.id && m.movement_type == "OUT")).map
        StockMovement.quantity)).getD 0
  let invoiced := (aggSum ((invoiceItems.filter (fun it =>
      it.product == p.id &&
      invoices.any (fun inv =>
        inv.id == it.invoice && inv.business == p.business))).map
        InvoiceItem.quantity)).getD 0
  incoming - outgoing - invoiced

/-- The stock formula exactly as claim C2 words it, with all three sums
scoped to the product's business.  This definition follows the claim's
words, for comparison with `Product.quantity_in_stock`, which follows the
source. -/
def quantity_in_stock_claimC2 (movements : List StockMovement)
    (invoiceItems : List InvoiceItem) (invoices : List Invoice)
    (p : Product) : Int :=
  let incoming := (aggSum ((movements.filter (fun m =>
      m.product == p.id && m.business == p.business &&
      m.movement_type == "IN")).map StockMovement.quantity)).getD 0
  let outgoing := (aggSum ((movements.filter (fun m =>
      m.product == p.id && m.business == p.business &&
      m.movement_type == "OUT")).map StockMovement.quantity)).getD 0
  let invoiced := (aggSum ((invoiceItems.filter (fun it =>
      it.product == p.id &&
      invoices.any (fun inv =>
        inv.id == it.invoice && inv.business == p.business))).map
        InvoiceItem.quantity)).getD 0
  incoming - outgoing - invoiced

/-- `InvoiceItem.line_total` (`models.py` lines 241-244). -/
def InvoiceItem.line_total (it : InvoiceItem) : Int :=
  it.quantity * it.unit_price

/-- `self.items.all()`: the line items whose `invoice` key is this
invoice. -/
def Invoice.items (invoiceItems : List InvoiceItem) (inv : Invoice) :
    List InvoiceItem :=
  invoiceItems.filter (fun it => it.invoice == inv.id)

/-- `Invoice.subtotal` (`models.py` lines 189-192): a computed property,
not a stored column (the `Invoice` record has no such field). -/
def Invoice.subtotal (invoiceItems : List InvoiceItem) (inv : Invoice) : Int :=
  ((inv.items invoiceItems).map InvoiceItem.line_total).sum

/-- `Invoice.tax_amount` (`models.py` lines 194-197): 0% of the subtotal. -/
def Invoice.tax_amount (invoiceItems : List InvoiceItem) (inv : Invoice) : Int :=
  inv.subtotal invoiceItems * 0

/-- `Invoice.total` (`models.py` lines 199-202). -/
def Invoice.total (invoiceItems : List InvoiceItem) (inv : Invoice) : Int :=
  inv.subtotal invoiceItems + inv.tax_amount invoiceItems

/-- An `InvoiceItem` before its first save: the `unit_price` attribute may
still be unset (`None`). -/
structure InvoiceItemInput where
  invoice : Nat
  product : Nat
  quantity : Int
  unit_price : Option Int
deriving DecidableEq

/-- Python truthiness of the pre-save `unit_price` attribute: `None`
(not supplied) and `Decimal(0)` are both falsy. -/
def decimalFalsy (v : Option Int) : Bool :=
  match v with
  | none => true
  | some x => x == 0

/-- `InvoiceItem.save` (`models.py` lines 246-250): `if not
self.unit_price: self.unit_price = self.product.unit_price`, then
persist.  `prod` is the row referenced by the `product` foreign key. -/
def InvoiceItemInput.save (prod : Product) (it : InvoiceItemInput) :
    InvoiceItem :=
  { invoice := it.invoice, product := it.product, quantity := it.quantity,
    unit_price :=
      if decimalFalsy it.unit_price then prod.unit_price
      else it.unit_price.getD 0 }

end InvoiceApp

namespace InvoiceApp

/-! ### Concrete sample data used by witnesses and counterexamples -/

def prodEx : Product :=
  { id := 1, business := 1, item_name := "Widget", unit_price := 5,
    is_active := true }

/-- An IN movement referencing product 1 but recorded under business 2,
different from the product's business 1. -/
def movForeignBiz : StockMovement :=
  { business := 2, product := 1, movement_type := "IN", quantity := 5,
    movement_date := 0 }

/-- An OUT movement for product 1 with no matching IN: stock goes
negative. -/
def movOutOnly : StockMovement :=
  { business := 1, product := 1, movement_type := "OUT", quantity := 3,
    movement_date := 0 }

def itemZeroPrice : InvoiceItemInput :=
  { invoice := 1, product := 1, quantity := 2, unit_price := some 0 }

def itemNoPrice : InvoiceItemInput :=
  { invoice := 1, product := 1, quantity := 2, unit_price := none }

def itemPricedSeven : InvoiceItemInput :=
  { invoice := 1, product := 1, quantity := 2, unit_price := some 7 }

def dateEx : Date := ⟨2026, 10, 12⟩

def invBlank : Invoice :=
  { id := 1, business := 1, user := 1, client_name := "Acme",
    invoice_number := "", invoice_date := 0, payment_type := "cash" }

def invNumbered : Invoice :=
  { id := 2, business := 1, user := 1, client_name := "Acme",
    invoice_number := "CUSTOM-7", invoice_date := 0, payment_type := "cash" }

end InvoiceApp

namespace InvoiceApp

/-! ### Memberships and the business view set (`viewsets.py`) -/

/-- `BusinessMembership` row (`models.py` lines 27-46); `role` holds the
raw role string, "admin" or "member" in well-formed rows. -/
structure BusinessMembership where
  user : Nat
  business : Nat
  role : String
deriving DecidableEq

/-- The authenticated requesting user as the framework presents it. -/
structure ReqUser where
  id : Nat
  is_staff : Bool
  is_superuser : Bool
deriving DecidableEq

/-- `business.memberships.filter(user=u, role=admin).first()` tested for
presence. -/
def isBusinessAdmin (memberships : List BusinessMembership)
    (userId businessId : Nat) : Bool :=
  memberships.any (fun m =>
    m.user == userId && m.business == businessId && m.role == "admin")

/-- `business.memberships.filter(role=admin).count()`. -/
def adminCount (memberships : List BusinessMembership)
    (businessId : Nat) : Nat :=
  (memberships.filter (fun m =>
    m.business == businessId && m.role == "admin")).length

/-- `BusinessViewSet.remove_member` (`viewsets.py` lines 161-195):
403 unless the requester is a superuser or an admin of the business;
404 when the target user has no membership there; 400 when the target is
an admin and the business has at most one admin; otherwise the membership
row is deleted and 204 returned. -/
def BusinessViewSet.remove_member (memberships : List BusinessMembership)
    (requester : ReqUser) (businessId user_id : Nat) :
    Nat × List BusinessMembership :=
  if requester.is_superuser = false ∧
      isBusinessAdmin memberships requester.id businessId = false then
    (403, memberships)
  else
    match memberships.find? (fun m =>
        m.user == user_id && m.business == businessId) with
    | none => (404, memberships)
    | some target =>
      if target.role = "admin" ∧ adminCount memberships businessId ≤ 1 then
        (400, memberships)
      else
        (204, memberships.filter (fun m =>
          !(m.user == user_id && m.business == businessId)))

/-- `BusinessViewSet.update_role` (`viewsets.py` lines 197-242): same
permission gate and 404 lookup as member removal; 400 on a role outside
admin/member; 400 when demoting an admin would leave the business with no
admin; otherwise the role is written and 200 returned. -/
def BusinessViewSet.update_role (memberships : List BusinessMembership)
    (requester : ReqUser) (businessId user_id : Nat) (new_role : String) :
    Nat × List BusinessMembership :=
  if requester.is_superuser = false ∧
      isBusinessAdmin memberships requester.id businessId = false then
    (403, memberships)
  else
    match memberships.find? (fun m =>
        m.user == user_id && m.business == businessId) with
    | none => (404, memberships)
    | some target =>
      if new_role ≠ "admin" ∧ new_role ≠ "member" then
        (400, memberships)
      else if target.role = "admin" ∧ new_role = "member" ∧
          adminCount memberships businessId ≤ 1 then
        (400, memberships)
      else
        (200, memberships.map (fun m =>
          if m.user == user_id && m.business == businessId then
            { m with role := new_role }
          else m))

/-! ### Stock movement, invoice and product view sets (`viewsets.py`) -/

/-- `StockMovementViewSet.update` (`viewsets.py` lines 362-366): always
405, the store untouched.  The framework routes a partial update through
this same overridden method. -/
def StockMovementViewSet.update (movements : List StockMovement) :
    Nat × List StockMovement :=
  (405, movements)

/-- `StockMovementViewSet.destroy` (`viewsets.py` lines 368-372): always
405, the store untouched. -/
def StockMovementViewSet.destroy (movements : List StockMovement) :
    Nat × List StockMovement :=
  (405, movements)

/-- Request context after authentication and the business-context
middleware: the requesting user, the resolved current business (if any),
today's day ordinal, and the query parameters of the list endpoints.
`user_id_param` is `none` when the parameter is absent, empty or "all";
`date_range_param` is `none` when absent, "all" or unparsable as an
integer. -/
structure ReqCtx where
  user : ReqUser
  business : Option Nat
  today : Int
  user_id_param : Option Nat
  date_range_param : Option Int
  from_date_param : Option Int
  to_date_param : Option Int
deriving DecidableEq

/-- The first statement of the invoice and deposit `get_queryset` bodies:
`Invoice.objects.filter(business=self.request.business)` when a business
is selected, `Invoice.objects.none()` otherwise. -/
def businessScopedInvoices (ctx : ReqCtx) (invoices : List Invoice) :
    List Invoice :=
  match ctx.business with
  | some b => invoices.filter (fun i => i.business == b)
  | none => []

/-- `InvoiceViewSet.get_queryset` (`viewsets.py` lines 386-430): scope to
the current business (empty when none is selected); non-staff users are
further restricted to their own invoices; staff users get the optional
user and date filters.  Ordering and prefetching do not change the
returned set and are omitted. -/
def InvoiceViewSet.get_queryset (ctx : ReqCtx) (invoices : List Invoice) :
    List Invoice :=
  let queryset := businessScopedInvoices ctx invoices
  if ctx.user.is_staff = false then
    queryset.filter (fun i => i.user == ctx.user.id)
  else
    let q1 :=
      match ctx.user_id_param with
      | some uid => queryset.filter (fun i => i.user == uid)
      | none => queryset
    let q2 :=
      match ctx.from_date_param with
      | some fd => q1.filter (fun i => decide (fd ≤ i.invoice_date))
      | none => q1
    match ctx.to_date_param with
    | some td => q2.filter (fun i => decide (i.invoice_date ≤ td))
    | none =>
      match ctx.from_date_param, ctx.date_range_param with
      | none, some days =>
        q2.filter (fun i => decide (ctx.today - days ≤ i.invoice_date))
      | _, _ => q2

/-- `ProductViewSet.get_queryset` (`viewsets.py` lines 258-262): the
products of the current business, empty when none is selected. -/
def ProductViewSet.get_queryset (ctx : ReqCtx) (products : List Product) :
    List Product :=
  match ctx.business with
  | some b => products.filter (fun p => p.business == b)
  | none => []

/-! ### Deposits (`viewsets.py`; the model itself is spec-modelled) -/

/-- Modelled from the spec: the `Deposit` model class is missing from the
sources (`models.py` does not define it; `viewsets.py`, `admin.py` and
`invoice_app/urls.py` import and use it).  Spec: "Deposit: belongs to
business and user; plain ledger entry, amount + date."  Field names
follow the uses in `viewsets.py` and `admin.py`. -/
structure Deposit where
  business : Nat
  user : Nat
  amount : Int
  deposit_date : Int
deriving DecidableEq

/-- `Deposit.objects.filter(business=self.request.business)` when a
business is selected, `Deposit.objects.none()` otherwise; shared by the
deposit list and users endpoints. -/
def businessScopedDeposits (ctx : ReqCtx) (deposits : List Deposit) :
    List Deposit :=
  match ctx.business with
  | some b => deposits.filter (fun d => d.business == b)
  | none => []

/-- `DepositViewSet.get_queryset` (`viewsets.py` lines 662-705): scope to
the current business; non-staff users see only their own deposits; staff
users get the optional user and date filters.  Ordering omitted. -/
def DepositViewSet.get_queryset (ctx : ReqCtx) (deposits : List Deposit) :
    List Deposit :=
  let queryset := businessScopedDeposits ctx deposits
  if ctx.user.is_staff = false then
    queryset.filter (fun d => d.user == ctx.user.id)
  else
    let q1 :=
      match ctx.user_id_param with
      | some uid => queryset.filter (fun d => d.user == uid)
      | none => queryset
    let q2 :=
      match ctx.from_date_param with
      | some fd => q1.filter (fun d => decide (fd ≤ d.deposit_date))
      | none => q1
    match ctx.to_date_param with
    | some td => q2.filter (fun d => decide (d.deposit_date ≤ td))
    | none =>
      match ctx.from_date_param, ctx.date_range_param with
      | none, some days =>
        q2.filter (fun d => decide (ctx.today - days ≤ d.deposit_date))
      | _, _ => q2

/-- `DepositViewSet.stats` (`viewsets.py` lines 715-726): count of the
queryset and the sum of its amounts. -/
def DepositViewSet.stats (ctx : ReqCtx) (deposits : List Deposit) :
    Nat × Int :=
  let queryset := DepositViewSet.get_queryset ctx deposits
  (queryset.length, (queryset.map Deposit.amount).sum)

/-- `DepositViewSet.users` (`viewsets.py` lines 728-744): the distinct
users having deposits in the current business, independent of the list
filters.  The username ordering is omitted. -/
def DepositViewSet.users (ctx : ReqCtx) (deposits : List Deposit) :
    List Nat :=
  let base := businessScopedDeposits ctx deposits
  (base.map Deposit.user).dedup

/-! ### User deletion (`viewsets.py` lines 555-566) -/

/-- The slice of application state touched by user deletion. -/
structure UserStore where
  users : List Nat
  memberships : List BusinessMembership
  invoices : List Invoice
deriving DecidableEq

/-- `UserViewSet.destroy` (`viewsets.py` lines 555-566): deleting oneself
is rejected with 400; otherwise the default destroy deletes the `User`
row, and the database cascades the delete along the CASCADE foreign keys
(`BusinessMembership.user`, `Invoice.user`) with no admin-count check. -/
def UserViewSet.destroy (st : UserStore) (requester : ReqUser)
    (target : Nat) : Nat × UserStore :=
  if target == requester.id then
    (400, st)
  else
    (204,
      { users := st.users.filter (fun u => !(u == target)),
        memberships := st.memberships.filter (fun m => !(m.user == target)),
        invoices := st.invoices.filter (fun i => !(i.user == target)) })

/-! ### Concurrent invoice creation (`models.py` lines 182-187, 204-219) -/

/-- `Meta.unique_together = [[business, invoice_number]]`: the database
rejects an insert that duplicates an existing (business, invoice_number)
pair; `none` is the integrity error. -/
def tryInsert (db : List Invoice) (inv : Invoice) : Option (List Invoice) :=
  if db.any (fun i =>
      i.business == inv.business && i.invoice_number == inv.invoice_number) then
    none
  else
    some (inv :: db)

/-- Pairwise distinctness of the (business, invoice_number) pairs of a
table. -/
def uniqueNumbers (db : List Invoice) : Prop :=
  db.Pairwise (fun i j =>
    ¬(i.business = j.business ∧ i.invoice_number = j.invoice_number))

/-- Commit a list of already-numbered invoices in order; a commit that
violates the uniqueness constraint fails and leaves the table unchanged
(that creation raises an integrity error). -/
def commitAll (db : List Invoice) (pending : List Invoice) : List Invoice :=
  pending.foldl (fun acc inv =>
    match tryInsert acc inv with
    | some db2 => db2
    | none => acc) db

end InvoiceApp

namespace InvoiceApp

/-! ### Further sample data -/

/-- The sole admin membership of business 1. -/
def adminMem : BusinessMembership := { user := 1, business := 1, role := "admin" }

/-- A plain member of business 1. -/
def plainMem : BusinessMembership := { user := 2, business := 1, role := "member" }

def membershipsEx : List BusinessMembership := [adminMem, plainMem]

/-- A superuser making the requests. -/
def superEx : ReqUser := { id := 9, is_staff := true, is_superuser := true }

/-- A staff (but not super) user. -/
def staffEx : ReqUser := { id := 9, is_staff := true, is_superuser := false }

/-- A plain authenticated user. -/
def plainUserEx : ReqUser := { id := 1, is_staff := false, is_superuser := false }

def ctxNonStaff : ReqCtx :=
  { user := plainUserEx, business := some 1, today := 0,
    user_id_param := none, date_range_param := none,
    from_date_param := none, to_date_param := none }

def invoicesEx : List Invoice :=
  [invNumbered,
   { id := 3, business := 1, user := 2, client_name := "Bob",
     invoice_number := "INV-20261011-0001", invoice_date := 0,
     payment_type := "cash" },
   { id := 4, business := 2, user := 1, client_name := "Eve",
     invoice_number := "INV-20261011-0002", invoice_date := 0,
     payment_type := "online" }]

def productsEx : List Product :=
  [prodEx,
   { id := 2, business := 2, item_name := "Gadget", unit_price := 9,
     is_active := true }]

def dep1 : Deposit := { business := 1, user := 1, amount := 10, deposit_date := 0 }

def depositsEx : List Deposit :=
  [dep1,
   { business := 1, user := 2, amount := 20, deposit_date := 1 },
   { business := 2, user := 1, amount := 30, deposit_date := 2 }]

/-- A second blank invoice of the same business, created concurrently. -/
def invBlank2 : Invoice :=
  { id := 5, business := 1, user := 2, client_name := "Carol",
    invoice_number := "", invoice_date := 0, payment_type := "cash" }

/-- A store in which user 1 is the sole admin member of business 1. -/
def soleAdminStore : UserStore :=
  { users := [1, 9], memberships := [adminMem], invoices := [] }

end InvoiceApp

namespace InvoiceApp

/-- C1: on save with an empty `invoice_number`, the number becomes
"INV-" ++ today's YYYYMMDD ++ "-" ++ NNNN where NNNN is one plus the count
of existing invoices of the same business whose number starts with
"INV-" ++ the date string, zero-padded to 4 digits; a non-empty number is
left unchanged, so assignment happens on first save only. -/
theorem invoice_number_assigned_on_first_save_only
    (d : Date) (db : List Invoice) (inv : Invoice) :
    (inv.invoice_number = "" →
      (Invoice.save d db inv).invoice_number =
        "INV-" ++ fmtYYYYMMDD d ++ "-" ++
          fmt4 ((db.filter (fun i =>
            i.business == inv.business &&
            strStartsWith i.invoice_number ("INV-" ++ fmtYYYYMMDD d))).length + 1)) ∧
    (inv.invoice_number ≠ "" →
      (Invoice.save d db inv).invoice_number = inv.invoice_number) := by
  constructor
  · intro h
    simp [Invoice.save, h]
  · intro h
    simp [Invoice.save, h]

/-- Witness for C1: a blank invoice saved over an empty table receives
number INV-20261012-0001, and an invoice that already carries a number
keeps it. -/
theorem invoice_number_assigned_on_first_save_only_witness :
    (invBlank.invoice_number = "" ∧
      (Invoice.save dateEx [] invBlank).invoice_number = "INV-20261012-0001") ∧
    (invNumbered.invoice_number ≠ "" ∧
      (Invoice.save dateEx [] invNumbered).invoice_number = "CUSTOM-7") := by
  refine ⟨⟨rfl, ?_⟩, ⟨by decide, ?_⟩⟩
  · have h := (invoice_number_assigned_on_first_save_only dateEx [] invBlank).1 rfl
    rw [h]
    decide
  · have h := (invoice_number_assigned_on_first_save_only dateEx [] invNumbered).2
      (by decide)
    rw [h]
    decide

end InvoiceApp

namespace InvoiceApp

/-- Helper: a Django sum aggregate with the `or 0` fallback is the plain
list sum. -/
theorem aggSum_getD_eq_sum (l : List Int) : (aggSum l).getD 0 = l.sum := by
  cases l with
  | nil => rfl
  | cons a t => rfl

/-- C2 counterexample: the IN and OUT sums of `quantity_in_stock` are not
scoped to the product's business.  An IN movement of product 1 recorded
under business 2 is counted by the code, while the claim's
business-scoped formula ignores it. -/
theorem quantity_in_stock_business_scoping_counterexample :
    Product.quantity_in_stock [movForeignBiz] [] [] prodEx = 5 ∧
    quantity_in_stock_claimC2 [movForeignBiz] [] [] prodEx = 0 ∧
    Product.quantity_in_stock [movForeignBiz] [] [] prodEx ≠
      quantity_in_stock_claimC2 [movForeignBiz] [] [] prodEx := by
  refine ⟨by decide, by decide, by decide⟩

/-- C2 (amended): `quantity_in_stock` is the sum of IN movements of the
product minus the sum of OUT movements of the product — both taken over
every movement referencing the product, regardless of the movement's own
business column — minus the invoiced quantities of the product across the
product's business's invoices; absent sums count as 0, and the result may
be negative. -/
theorem quantity_in_stock_formula :
    (∀ (movements : List StockMovement) (invoiceItems : List InvoiceItem)
        (invoices : List Invoice) (p : Product),
      Product.quantity_in_stock movements invoiceItems invoices p =
        ((movements.filter (fun m =>
            m.product == p.id && m.movement_type == "IN")).map
              StockMovement.quantity).sum -
        ((movements.filter (fun m =>
            m.product == p.id && m.movement_type == "OUT")).map
              StockMovement.quantity).sum -
        ((invoiceItems.filter (fun it =>
            it.product == p.id &&
            invoices.any (fun inv =>
              inv.id == it.invoice && inv.business == p.business))).map
              InvoiceItem.quantity).sum) ∧
    Product.quantity_in_stock [movOutOnly] [] [] prodEx < 0 := by
  constructor
  · intro movements invoiceItems invoices p
    simp only [Product.quantity_in_stock, aggSum_getD_eq_sum]
  · decide

/-- C7: the subtotal of an invoice is the sum of `line_total` over its
line items, the total is the subtotal plus the tax amount, and each line
item's `line_total` is its quantity times its unit price; all three are
computed from the line items, not read from stored columns. -/
theorem invoice_totals_computed_from_items :
    (∀ (invoiceItems : List InvoiceItem) (inv : Invoice),
      Invoice.subtotal invoiceItems inv =
        ((inv.items invoiceItems).map InvoiceItem.line_total).sum) ∧
    (∀ (invoiceItems : List InvoiceItem) (inv : Invoice),
      Invoice.total invoiceItems inv =
        Invoice.subtotal invoiceItems inv + Invoice.tax_amount invoiceItems inv) ∧
    (∀ it : InvoiceItem, it.line_total = it.quantity * it.unit_price) := by
  refine ⟨fun invoiceItems inv => rfl, fun invoiceItems inv => rfl,
    fun it => rfl⟩

/-- C8 counterexample: a line item saved with `unit_price` supplied as 0
does not keep the supplied price — Python truthiness treats `Decimal(0)`
like an absent value, so the product's price (5) is written instead. -/
theorem unit_price_zero_overwritten_counterexample :
    itemZeroPrice.unit_price = some 0 ∧
    (InvoiceItemInput.save prodEx itemZeroPrice).unit_price = 5 ∧
    (InvoiceItemInput.save prodEx itemZeroPrice).unit_price ≠ 0 := by
  refine ⟨by decide, by decide, by decide⟩

/-- C8 (amended): a line item saved without a `unit_price`, or with a
`unit_price` equal to zero, gets the referenced product's current
`unit_price`; a line item saved with a nonzero `unit_price` keeps the
supplied value. -/
theorem unit_price_default_from_product (prod : Product)
    (it : InvoiceItemInput) :
    (decimalFalsy it.unit_price = true →
      (InvoiceItemInput.save prod it).unit_price = prod.unit_price) ∧
    (∀ v : Int, it.unit_price = some v → v ≠ 0 →
      (InvoiceItemInput.save prod it).unit_price = v) := by
  constructor
  · intro h
    simp [InvoiceItemInput.save, h]
  · intro v hv hvz
    have hf : decimalFalsy (some v) = false := by
      simp [decimalFalsy, hvz]
    simp [InvoiceItemInput.save, hv, hf]

/-- Witness for C8 (amended): an item with no price gets the product price
5; an item priced 7 keeps 7. -/
theorem unit_price_default_from_product_witness :
    (decimalFalsy itemNoPrice.unit_price = true ∧
      (InvoiceItemInput.save prodEx itemNoPrice).unit_price = 5) ∧
    (itemPricedSeven.unit_price = some 7 ∧
      (InvoiceItemInput.save prodEx itemPricedSeven).unit_price = 7) := by
  constructor
  · refine ⟨by decide, ?_⟩
    have h := (unit_price_default_from_product prodEx itemNoPrice).1 (by decide)
    rw [h]
    decide
  · refine ⟨by decide, ?_⟩
    exact (unit_price_default_from_product prodEx itemPricedSeven).2 7 rfl
      (by decide)

end InvoiceApp

namespace InvoiceApp

/-- C3: when a business has exactly one admin-role membership, removing
that admin and demoting that admin to member both answer HTTP 400 and
leave the membership store unchanged, for any requester that passes the
superuser-or-business-admin permission gate; so removing the last admin
membership of a business always fails. -/
theorem last_admin_protected (memberships : List BusinessMembership)
    (requester : ReqUser) (b u : Nat) (m : BusinessMembership)
    (hperm : requester.is_superuser = true ∨
      isBusinessAdmin memberships requester.id b = true)
    (hfind : memberships.find? (fun mm =>
      mm.user == u && mm.business == b) = some m)
    (hrole : m.role = "admin")
    (hcount : adminCount memberships b = 1) :
    BusinessViewSet.remove_member memberships requester b u =
      (400, memberships) ∧
    BusinessViewSet.update_role memberships requester b u "member" =
      (400, memberships) := by
  have hpermF : ¬(requester.is_superuser = false ∧
      isBusinessAdmin memberships requester.id b = false) := by
    rcases hperm with h | h <;> simp [h]
  constructor
  · rw [BusinessViewSet.remove_member, if_neg hpermF]
    simp only [hfind]
    rw [if_pos ⟨hrole, hcount.le⟩]
  · rw [BusinessViewSet.update_role, if_neg hpermF]
    simp only [hfind]
    have h1 : ¬(("member" : String) ≠ "admin" ∧ ("member" : String) ≠ "member") := by
      decide
    rw [if_neg h1]
    have h2 : m.role = "admin" ∧ True ∧ adminCount memberships b ≤ 1 :=
      ⟨hrole, trivial, hcount.le⟩
    rw [if_pos h2]

/-- Witness for C3: business 1 has the single admin membership `adminMem`;
a superuser's removal and demotion attempts on that admin both return 400
with the store unchanged. -/
theorem last_admin_protected_witness :
    BusinessViewSet.remove_member membershipsEx superEx 1 1 =
      (400, membershipsEx) ∧
    BusinessViewSet.update_role membershipsEx superEx 1 1 "member" =
      (400, membershipsEx) :=
  last_admin_protected membershipsEx superEx 1 1 adminMem
    (Or.inl rfl) (by decide) rfl (by decide)

/-- C6: the stock-movement endpoint answers every update and every delete
of an existing movement with HTTP 405 and leaves the stored movements
unchanged (a partial update is routed through the same overridden update
method); stock movements are immutable once created. -/
theorem stock_movements_immutable (movements : List StockMovement) :
    StockMovementViewSet.update movements = (405, movements) ∧
    StockMovementViewSet.destroy movements = (405, movements) :=
  ⟨rfl, rfl⟩

end InvoiceApp

namespace InvoiceApp

/-- Helper: a member of the business-scoped invoice base is a stored
invoice of the request's current business. -/
theorem mem_businessScopedInvoices (ctx : ReqCtx) (invoices : List Invoice)
    (inv : Invoice) (h : inv ∈ businessScopedInvoices ctx invoices) :
    inv ∈ invoices ∧ ctx.business = some inv.business := by
  unfold businessScopedInvoices at h
  cases hb : ctx.business with
  | none =>
    simp only [hb] at h
    simp at h
  | some b =>
    simp only [hb] at h
    rw [List.mem_filter] at h
    have hib := h.2
    simp only [beq_iff_eq] at hib
    exact ⟨h.1, by rw [hib]⟩

/-- Helper: a member of the business-scoped deposit base is a stored
deposit of the request's current business. -/
theorem mem_businessScopedDeposits (ctx : ReqCtx) (deposits : List Deposit)
    (d : Deposit) (h : d ∈ businessScopedDeposits ctx deposits) :
    d ∈ deposits ∧ ctx.business = some d.business := by
  unfold businessScopedDeposits at h
  cases hb : ctx.business with
  | none =>
    simp only [hb] at h
    simp at h
  | some b =>
    simp only [hb] at h
    rw [List.mem_filter] at h
    have hdb := h.2
    simp only [beq_iff_eq] at hdb
    exact ⟨h.1, by rw [hdb]⟩

/-- Helper: every branch of the deposit list endpoint only filters the
business-scoped base further. -/
theorem deposit_queryset_subset (ctx : ReqCtx) (deposits : List Deposit) :
    ∀ d ∈ DepositViewSet.get_queryset ctx deposits,
      d ∈ businessScopedDeposits ctx deposits := by
  intro d h
  simp only [DepositViewSet.get_queryset] at h
  split at h
  · exact List.filter_subset' _ h
  · repeat' split at h
    all_goals
      first
        | exact h
        | exact List.filter_subset' _ h
        | exact List.filter_subset' _ (List.filter_subset' _ h)
        | exact List.filter_subset' _ (List.filter_subset' _ (List.filter_subset' _ h))

/-- C4: for a non-staff requester, every invoice in the invoice list
queryset belongs to the requesting user and to the request's current
business, and every product in the product list queryset belongs to the
current business — a non-staff user can never list another user's
invoices or another business's products. -/
theorem non_staff_list_isolation (ctx : ReqCtx) (invoices : List Invoice)
    (products : List Product) (hstaff : ctx.user.is_staff = false) :
    (∀ inv ∈ InvoiceViewSet.get_queryset ctx invoices,
      inv.user = ctx.user.id ∧ ctx.business = some inv.business) ∧
    (∀ p ∈ ProductViewSet.get_queryset ctx products,
      ctx.business = some p.business) := by
  constructor
  · intro inv h
    simp [InvoiceViewSet.get_queryset, hstaff] at h
    exact ⟨h.2, (mem_businessScopedInvoices ctx invoices inv h.1).2⟩
  · intro p h
    simp only [ProductViewSet.get_queryset] at h
    cases hb : ctx.business with
    | none =>
      simp only [hb] at h
      simp at h
    | some b =>
      simp only [hb] at h
      rw [List.mem_filter] at h
      have hpb := h.2
      simp only [beq_iff_eq] at hpb
      rw [hpb]

/-- Witness for C4: the non-staff user 1 with business 1 selected lists
exactly own invoices; the sample invoice comes back with the right owner
and business. -/
theorem non_staff_list_isolation_witness :
    ctxNonStaff.user.is_staff = false ∧
    invNumbered ∈ InvoiceViewSet.get_queryset ctxNonStaff invoicesEx ∧
    (invNumbered.user = ctxNonStaff.user.id ∧
      ctxNonStaff.business = some invNumbered.business) :=
  ⟨rfl, by decide,
   (non_staff_list_isolation ctxNonStaff invoicesEx productsEx rfl).1
     invNumbered (by decide)⟩

end InvoiceApp

namespace InvoiceApp

/-- C9: the data model has a `Deposit` entity belonging to a business and
a user and carrying an amount and a date, and that entity backs the REST
deposit endpoints: every deposit the list queryset returns is a stored
`Deposit` of the current business, the stats endpoint reports the count
and summed amount of that queryset, and the users endpoint lists exactly
users owning a stored deposit of the current business. -/
theorem deposit_entity_backs_endpoints (ctx : ReqCtx)
    (deposits : List Deposit) :
    (∀ d ∈ DepositViewSet.get_queryset ctx deposits,
      d ∈ deposits ∧ ctx.business = some d.business) ∧
    (DepositViewSet.stats ctx deposits =
      ((DepositViewSet.get_queryset ctx deposits).length,
        ((DepositViewSet.get_queryset ctx deposits).map Deposit.amount).sum)) ∧
    (∀ u ∈ DepositViewSet.users ctx deposits,
      ∃ d, d ∈ deposits ∧ d.user = u ∧ ctx.business = some d.business) := by
  refine ⟨?_, rfl, ?_⟩
  · intro d h
    exact mem_businessScopedDeposits ctx deposits d
      (deposit_queryset_subset ctx deposits d h)
  · intro u hu
    simp only [DepositViewSet.users] at hu
    rw [List.mem_dedup, List.mem_map] at hu
    obtain ⟨d, hd, hdu⟩ := hu
    have hbase := mem_businessScopedDeposits ctx deposits d hd
    exact ⟨d, hbase.1, hdu, hbase.2⟩

/-- Witness for C9: for the non-staff user 1 with business 1 selected,
the sample deposit `dep1` comes back from the queryset as a stored
deposit of business 1, and the stats pair evaluates to (1, 10). -/
theorem deposit_entity_backs_endpoints_witness :
    (dep1 ∈ depositsEx ∧ ctxNonStaff.business = some dep1.business) ∧
    DepositViewSet.stats ctxNonStaff depositsEx = (1, 10) :=
  ⟨(deposit_entity_backs_endpoints ctxNonStaff depositsEx).1 dep1 (by decide),
   ((deposit_entity_backs_endpoints ctxNonStaff depositsEx).2.1).trans
     (by decide)⟩

/-- C10: user deletion (for a target other than the requester) answers
204 and removes every membership of the deleted user by cascade, with no
admin-count check; concretely, deleting user 1 — the sole admin member of
business 1 — leaves business 1 with zero admin memberships. -/
theorem user_delete_cascades_memberships :
    (∀ (st : UserStore) (requester : ReqUser) (target : Nat),
      target ≠ requester.id →
      (UserViewSet.destroy st requester target).1 = 204 ∧
      ∀ m ∈ (UserViewSet.destroy st requester target).2.memberships,
        m.user ≠ target) ∧
    (adminCount soleAdminStore.memberships 1 = 1 ∧
      (UserViewSet.destroy soleAdminStore staffEx 1).1 = 204 ∧
      adminCount (UserViewSet.destroy soleAdminStore staffEx 1).2.memberships
        1 = 0) := by
  constructor
  · intro st requester target hne
    have hcond : (target == requester.id) = false := by
      simp [hne]
    constructor
    · simp [UserViewSet.destroy, hcond]
    · intro m hm
      simp [UserViewSet.destroy, hcond] at hm
      exact hm.2
  · exact ⟨by decide, by decide, by decide⟩

/-- Witness for C10: the staff requester (id 9) deletes user 1 and
receives 204. -/
theorem user_delete_cascades_memberships_witness :
    (1 : Nat) ≠ staffEx.id ∧
    (UserViewSet.destroy soleAdminStore staffEx 1).1 = 204 :=
  ⟨by decide,
   (user_delete_cascades_memberships.1 soleAdminStore staffEx 1 (by decide)).1⟩

/-- C5 counterexample: two concurrent creations in the same business on
the same day whose locking counts both run against the same snapshot (the
documented race: neither transaction sees the other's insert) assign the
same invoice number to both invoices, so the assigned numbers are not
pairwise distinct. -/
theorem concurrent_numbering_counterexample :
    invBlank.business = invBlank2.business ∧
    (Invoice.save dateEx [] invBlank).invoice_number =
      (Invoice.save dateEx [] invBlank2).invoice_number ∧
    (Invoice.save dateEx [] invBlank).invoice_number =
      "INV-20261012-0001" := by
  refine ⟨rfl, by decide, by decide⟩

/-- Helper: one commit attempt under the (business, invoice_number)
uniqueness constraint preserves pairwise distinctness of the stored
pairs. -/
theorem tryInsert_preserves_uniqueNumbers (db : List Invoice)
    (inv : Invoice) (h : uniqueNumbers db) :
    uniqueNumbers (match tryInsert db inv with
      | some db2 => db2
      | none => db) := by
  unfold tryInsert
  by_cases hany : (db.any (fun i =>
      i.business == inv.business &&
      i.invoice_number == inv.invoice_number)) = true
  · rw [if_pos hany]
    exact h
  · rw [if_neg hany]
    show uniqueNumbers (inv :: db)
    rw [uniqueNumbers, List.pairwise_cons]
    refine ⟨?_, h⟩
    intro j hj hcontra
    apply hany
    rw [List.any_eq_true]
    refine ⟨j, hj, ?_⟩
    simp [hcontra.1.symm, hcontra.2.symm]

/-- Helper: any sequence of commit attempts preserves pairwise
distinctness of the stored (business, invoice_number) pairs. -/
theorem commitAll_preserves_uniqueNumbers (pending : List Invoice) :
    ∀ db, uniqueNumbers db → uniqueNumbers (commitAll db pending) := by
  induction pending with
  | nil => exact fun db h => h
  | cons inv rest ih =>
    intro db h
    exact ih _ (tryInsert_preserves_uniqueNumbers db inv h)

/-- C5 (amended): concurrently computed invoice numbers may coincide, but
the stored table never comes to hold two invoices of one business with
the same number: starting from a table with pairwise distinct
(business, invoice_number) pairs, any sequence of creation commits keeps
them pairwise distinct, because the uniqueness constraint rejects a
colliding insert — in the raced schedule the second creation fails with
an integrity error instead of storing a duplicate. -/
theorem stored_invoice_numbers_unique (db pending : List Invoice)
    (h : uniqueNumbers db) :
    uniqueNumbers (commitAll db pending) ∧
    tryInsert [Invoice.save dateEx [] invBlank]
      (Invoice.save dateEx [] invBlank2) = none :=
  ⟨commitAll_preserves_uniqueNumbers pending db h, by decide⟩

/-- Witness for C5 (amended): committing the two racing creations onto
the empty table keeps the stored pairs distinct (the second commit is
refused). -/
theorem stored_invoice_numbers_unique_witness :
    uniqueNumbers ([] : List Invoice) ∧
    uniqueNumbers (commitAll []
      [Invoice.save dateEx [] invBlank, Invoice.save dateEx [] invBlank2]) := by
  constructor
  · unfold uniqueNumbers
    exact List.Pairwise.nil
  · exact (stored_invoice_numbers_unique []
      [Invoice.save dateEx [] invBlank, Invoice.save dateEx [] invBlank2]
      (by unfold uniqueNumbers; exact List.Pairwise.nil)).1

end InvoiceApp
